import Mathlib

/-!
Shallow embedding of `.kiro/scripts/generate-user-flow-diagram.py`
(class `UserFlowDiagramGenerator`), a text-mining script that extracts
screens, user stories and navigation flows from two markdown documents
and assembles a derived `user-flows.md` document.

Modelling notes:
* Python `re.findall` is embedded per pattern shape as a deterministic
  scanner (`findAll` driver + a step function per pattern shape), with
  leftmost, non-overlapping match semantics.  The shapes used by the
  script admit a closed-form description of the backtracking behaviour,
  reproduced here (checked against CPython's `re` on the edge cases).
* Character classes `\w` and `\s`, `str.title`, `str.strip`,
  `str.lower` and `re.IGNORECASE` are embedded over the ASCII range
  (the script's own keywords behave identically; non-ASCII case
  folding is not needed by any claim).
* `datetime.now()` is an input of the run and is passed as an explicit
  `ts` argument.
* The Python `set` of screens has an unspecified iteration order;
  the embedding accumulates screens in first-seen order and all
  theorems about the screen collection use only membership and
  duplicate-freeness (a permutation models any other run order).
-/

/-- ASCII embedding of Python's regex class `\s`. -/
def pyWs (c : Char) : Bool :=
  c = ' ' || c = '\t' || c = '\n' || c = '\r' || c = '\x0b' || c = '\x0c'

/-- ASCII embedding of Python's regex class `\w` (letters, digits, `_`). -/
def pyWord (c : Char) : Bool :=
  c.isAlpha || c.isDigit || c = '_'

/-- A character matching the bracket class `[\w\s]`. -/
def wsOrWord (c : Char) : Bool :=
  pyWord c || pyWs c

/-- ASCII lowering of one character (embedding of `re.IGNORECASE` folding
and of `str.lower` for the inputs at hand). -/
def lowerC (c : Char) : Char := c.toLower

/-- `str.lower` over a character list (ASCII). -/
def pyLower (l : List Char) : List Char := l.map lowerC

/-- Case-insensitive test that `needle` is a prefix of `hay`
(embedding of matching a literal under `re.IGNORECASE`). -/
def ciStarts (needle hay : List Char) : Bool :=
  pyLower (hay.take needle.length) = pyLower needle

/-- Embedding of Python `str.strip()`: drop leading and trailing whitespace. -/
def pyStrip (l : List Char) : List Char :=
  ((l.dropWhile pyWs).reverse.dropWhile pyWs).reverse

/-- One step of Python `str.title()`: `prevCased` records whether the
previous character was cased (a letter, in the ASCII embedding). -/
def pyTitleAux : Bool → List Char → List Char
  | _, [] => []
  | prevCased, c :: rest =>
    (if c.isAlpha then (if prevCased then c.toLower else c.toUpper) else c)
      :: pyTitleAux c.isAlpha rest

/-- Embedding of Python `str.title()` (ASCII): a letter is uppercased
exactly when the previous character is not a letter. -/
def pyTitle (l : List Char) : List Char := pyTitleAux false l

/-- Generic `re.findall` driver: try the step function at the current
position; on a match, emit its captures and resume at the end of the
match, otherwise advance one character.  `fuel` bounds the number of
iterations; every step function below consumes at least one character
on success, so `fuel = cs.length` is always enough. -/
def findAllAux (step : List Char → Option (α × List Char)) :
    Nat → List Char → List α
  | 0, _ => []
  | Nat.succ fuel, cs =>
    match step cs with
    | some (a, rest) => a :: findAllAux step fuel rest
    | none =>
      match cs with
      | [] => []
      | _ :: t => findAllAux step fuel t

/-- `re.findall pattern cs` for a pattern embedded as `step`. -/
def findAll (step : List Char → Option (α × List Char)) (cs : List Char) :
    List α :=
  findAllAux step cs.length cs

/-- Match, at the current position, a pattern of the shape
`LITERAL([\w\s]+)` (the six screen patterns): the literal keyword,
case-insensitively, followed by a maximal nonempty run of `[\w\s]`
characters, which is the capture. -/
def stepKeywordCap (kw : List Char) (cs : List Char) :
    Option (List Char × List Char) :=
  if ciStarts kw cs then
    let rest := cs.drop kw.length
    let run := rest.takeWhile wsOrWord
    if run = [] then none else some (run, rest.drop run.length)
  else none

/-- Match, at the current position, a pattern of the shape
`([\w\s]+)\s*SEP\s*([\w\s]+)` where `SEP` contains no `[\w\s]`
character (the `→` and `->` navigation patterns).  Backtracking
resolves to: group 1 is the maximal `[\w\s]` run at the position
(SEP must follow it immediately, since SEP cannot start inside the
run); after SEP, `\s*` eats the leading whitespace of the next
maximal `[\w\s]` run and group 2 is the remainder — except that when
that run is all whitespace, `\s*` gives one character back so that
group 2 is the run's last character. -/
def stepCapSepCap (sep : List Char) (cs : List Char) :
    Option ((List Char × List Char) × List Char) :=
  let run1 := cs.takeWhile wsOrWord
  if run1 = [] then none
  else
    let rest1 := cs.drop run1.length
    if ciStarts sep rest1 then
      let rest2 := rest1.drop sep.length
      let run2 := rest2.takeWhile wsOrWord
      if run2 = [] then none
      else
        let t := run2.dropWhile pyWs
        let g2 := if t = [] then [run2.getLastD ' '] else t
        some ((run1, g2), rest2.drop run2.length)
    else none

/-- Find the largest cut position `L` of `run` such that `sep` occurs
(case-insensitively) at `L`, with at least one character before and at
least one character after the separator; return the two sides.  This is
the backtracking result for `([\w\s]+) SEP ([\w\s]+)` when `SEP`
consists of `[\w\s]` characters and `run` is the maximal `[\w\s]` run
after the keyword (group 1 greedy: the last viable separator wins). -/
def lastSepSplit (sep run : List Char) : Option (List Char × List Char) :=
  (List.range run.length).reverse.findSome? (fun L =>
    if 0 < L && ciStarts sep (run.drop L) && decide (L + sep.length < run.length)
    then some (run.take L, run.drop (L + sep.length))
    else none)

/-- Match, at the current position, a pattern of the shape
`LITERAL ([\w\s]+) SEP ([\w\s]+)` where `SEP` consists of `[\w\s]`
characters (`from … to …`, `navigate from … to …`,
`chuyển từ … sang …`). -/
def stepKeyCapSepCap (lit sep : List Char) (cs : List Char) :
    Option ((List Char × List Char) × List Char) :=
  if ciStarts lit cs then
    let rest := cs.drop lit.length
    let run := rest.takeWhile wsOrWord
    match lastSepSplit sep run with
    | some (g1, g2) => some ((g1, g2), rest.drop run.length)
    | none => none
  else none

/-- First index at which `needle` occurs (case-insensitively) in `hay`. -/
def findCI (needle : List Char) : List Char → Option Nat
  | [] => if needle = [] then some 0 else none
  | c :: t =>
    if ciStarts needle (c :: t) then some 0
    else (findCI needle t).map (· + 1)

/-- Match, at the current position, the user-story span pattern
`As a.*?I want.*?So that.*?` (`re.DOTALL | re.IGNORECASE`): the literal
`As a`, then the earliest following `I want`, then the earliest
following `So that`; the trailing lazy `.*?` matches the empty string,
so the match ends right after `So that`.  The capture is the whole
matched span. -/
def stepStorySpan (cs : List Char) : Option (List Char × List Char) :=
  let asA := String.toList "As a"
  let iWant := String.toList "I want"
  let soThat := String.toList "So that"
  if ciStarts asA cs then
    match findCI iWant (cs.drop asA.length) with
    | none => none
    | some k1 =>
      let off2 := asA.length + k1 + iWant.length
      match findCI soThat (cs.drop off2) with
      | none => none
      | some k2 =>
        let len := off2 + k2 + soThat.length
        some (cs.take len, cs.drop len)
  else none

/-- Match, at the current position, the user-story triple pattern
`As a ([^,]+),\s*I want ([^,]+),\s*So that ([^.]+)`
(`re.IGNORECASE | re.DOTALL`).  `[^,]+` is a greedy nonempty run of
non-comma characters (which must be followed by the comma); `\s*` eats
whitespace up to the next literal, which must match exactly there; the
final `[^.]+` is a greedy nonempty run of non-period characters. -/
def stepStoryTriple (cs : List Char) :
    Option ((List Char × List Char × List Char) × List Char) :=
  let asA := String.toList "As a "
  let iWant := String.toList "I want "
  let soThat := String.toList "So that "
  if ciStarts asA cs then
    let r1 := cs.drop asA.length
    let g1 := r1.takeWhile (· ≠ ',')
    if g1 = [] then none
    else
      match r1.drop g1.length with
      | [] => none
      | _ :: afterComma1 =>
        let r2 := afterComma1.dropWhile pyWs
        if ciStarts iWant r2 then
          let r2b := r2.drop iWant.length
          let g2 := r2b.takeWhile (· ≠ ',')
          if g2 = [] then none
          else
            match r2b.drop g2.length with
            | [] => none
            | _ :: afterComma2 =>
              let r3 := afterComma2.dropWhile pyWs
              if ciStarts soThat r3 then
                let r3b := r3.drop soThat.length
                let g3 := r3b.takeWhile (· ≠ '.')
                if g3 = [] then none
                else some ((g1, g2, g3), r3b.drop g3.length)
              else none
        else none
  else none

/-! ## Extracted data model -/

/-- A navigation flow record, `{'from': …, 'to': …, 'type': …}` in the
source; the field names mirror the local variables `from_screen` /
`to_screen` (`from` is a Lean keyword). -/
structure NavFlow where
  fromScreen : String
  toScreen : String
  type : String
deriving DecidableEq, Repr

/-- A user story record `{'id': …, 'actor': …, 'action': …, 'benefit': …}`. -/
structure UserStory where
  id : String
  actor : String
  action : String
  benefit : String
deriving DecidableEq, Repr

/-! ## Screen extraction (`extract_screens_from_requirements`) -/

/-- The six `screen_patterns` keywords (each pattern is the keyword,
a space, then `([\w\s]+)`). -/
def screen_keywords : List (List Char) :=
  [String.toList "màn hình ", String.toList "screen ",
   String.toList "page ", String.toList "view ",
   String.toList "UI ", String.toList "interface "]

/-- Python `set.add`: keep the first occurrence, ignore re-insertions
(the embedding fixes first-seen order as the set's iteration order). -/
def setAdd (l : List String) (s : String) : List String :=
  if s ∈ l then l else l ++ [s]

/-- One screen-pattern match: strip, title-case, and add to the set
when longer than 2 characters (`if len(screen_name) > 2`). -/
def addScreen (screens : List String) (cap : List Char) : List String :=
  if 2 < (String.mk (pyTitle (pyStrip cap))).length then
    setAdd screens (String.mk (pyTitle (pyStrip cap)))
  else screens

/-- Run all six screen patterns over `cs`, accumulating into `acc`. -/
def screenPass (acc : List String) (cs : List Char) : List String :=
  screen_keywords.foldl
    (fun a kw => (findAll (stepKeywordCap kw) cs).foldl addScreen a) acc

/-- `extract_screens_from_requirements`: all six patterns over the whole
document, then the same six patterns over every user-story span. -/
def extract_screens_from_requirements (content : String) : List String :=
  let cs := content.toList
  let afterFull := screenPass [] cs
  (findAll stepStorySpan cs).foldl screenPass afterFull

/-! ## Navigation extraction (`extract_navigation_from_design`) -/

/-- The filter-and-build step of the navigation loop: strip and
title-case both groups, keep the edge only when both names exceed 2
characters, with fixed type `"navigation"`. -/
def navFlowsOfPairs (ps : List (List Char × List Char)) : List NavFlow :=
  ps.filterMap (fun p =>
    let from_screen := String.mk (pyTitle (pyStrip p.1))
    let to_screen := String.mk (pyTitle (pyStrip p.2))
    if 2 < from_screen.length ∧ 2 < to_screen.length then
      some ⟨from_screen, to_screen, "navigation"⟩
    else none)

/-- `extract_navigation_from_design`: the five `navigation_patterns`
in source order, concatenated without deduplication. -/
def extract_navigation_from_design (content : String) : List NavFlow :=
  let cs := content.toList
  navFlowsOfPairs (findAll (stepCapSepCap (String.toList "→")) cs) ++
  navFlowsOfPairs (findAll (stepCapSepCap (String.toList "->")) cs) ++
  navFlowsOfPairs (findAll (stepKeyCapSepCap (String.toList "from ")
    (String.toList " to ")) cs) ++
  navFlowsOfPairs (findAll (stepKeyCapSepCap (String.toList "navigate from ")
    (String.toList " to ")) cs) ++
  navFlowsOfPairs (findAll (stepKeyCapSepCap (String.toList "chuyển từ ")
    (String.toList " sang ")) cs)

/-! ## User story extraction (`extract_user_stories`) -/

/-- `f'US{i+1:03d}'`: `US` plus the counter zero-padded to at least
three digits. -/
def usId (n : Nat) : String :=
  "US" ++ (if n < 10 then "00" else if n < 100 then "0" else "") ++ toString n

/-- `extract_user_stories`: one record per match of the story triple
pattern, in match order, with sequential ids. -/
def extract_user_stories (content : String) : List UserStory :=
  ((findAll stepStoryTriple content.toList).enum).map (fun p =>
    ⟨usId (p.1 + 1), String.mk (pyStrip p.2.1),
     String.mk (pyStrip p.2.2.1), String.mk (pyStrip p.2.2.2)⟩)

/-- Embedding of Python's `needle in hay` substring test. -/
def strContains (hay needle : List Char) : Bool :=
  hay.tails.any (fun t => needle.isPrefixOf t)

/-! ## Connection matrix (`generate_connection_matrix`) -/

/-- The `has_connection` test of the matrix loop: some flow has
`from == from_screen and to == to_screen` (exact string equality). -/
def hasConn (flows : List NavFlow) (from_screen to_screen : String) : Bool :=
  flows.any (fun flow => flow.fromScreen = from_screen && flow.toScreen = to_screen)

/-- The structured content of the connection matrix: one labelled row
per screen, one labelled cell per screen, cell value `has_connection`. -/
def matrixCells (screens : List String) (flows : List NavFlow) :
    List (String × List (String × Bool)) :=
  screens.map (fun a => (a, screens.map (fun b => (b, hasConn flows a b))))

/-- `generate_connection_matrix`: the markdown table (header line with
one column label per screen, then one row per screen with ✅/❌ cells). -/
def generate_connection_matrix (screens : List String) (flows : List NavFlow) :
    String :=
  let header := "\n### Screen Connection Matrix\n\n" ++ "| From \\ To | "
    ++ String.intercalate " | " screens ++ " |\n"
    ++ "|" ++ String.join (List.replicate (screens.length + 1) "---|") ++ "\n"
  screens.foldl (fun m from_screen =>
    m ++ "| **" ++ from_screen ++ "** |"
      ++ String.join (screens.map (fun to_screen =>
           if hasConn flows from_screen to_screen then " ✅ |" else " ❌ |"))
      ++ "\n") header

/-! ## Mermaid diagram (`generate_mermaid_diagram`) -/

/-- The `screen_ids` dict: screen name to node id `S1`, `S2`, … in
iteration order. -/
def screenIds (screens : List String) : List (String × String) :=
  (screens.enum).map (fun p => (p.2, "S" ++ toString (p.1 + 1)))

/-- One iteration of the connection loop: the edge statement for a flow
when both endpoints have node ids (`if from_id and to_id`), `none`
otherwise. -/
def edgeEntry (screens : List String) (flow : NavFlow) : Option String :=
  match (screenIds screens).lookup flow.fromScreen,
        (screenIds screens).lookup flow.toScreen with
  | some from_id, some to_id =>
    some ("    " ++ from_id ++ " --> " ++ to_id ++ "\n")
  | _, _ => none

/-- `generate_mermaid_diagram`: node statements per screen, edge
statements per flow with both endpoints resolved, fixed styling. -/
def generate_mermaid_diagram (screens : List String) (flows : List NavFlow) :
    String :=
  "```mermaid\ngraph TD\n"
  ++ String.join ((screens.enum).map (fun p =>
       "    S" ++ toString (p.1 + 1) ++ "[" ++ p.2 ++ "]\n"))
  ++ String.join (flows.filterMap (edgeEntry screens))
  ++ "\n    classDef primaryScreen fill:#e1f5fe\n"
  ++ "    classDef secondaryScreen fill:#f3e5f5\n"
  ++ "    classDef actionScreen fill:#e8f5e8\n"
  ++ "```\n"

/-! ## Heuristics and remaining assembler pieces -/

/-- `_infer_connection_reason`: lowercase-substring heuristics, first
match wins, `none` when no rule applies. -/
def infer_connection_reason (from_screen to_screen : String) : Option String :=
  let from_lower := pyLower from_screen.toList
  let to_lower := pyLower to_screen.toList
  if strContains from_lower (String.toList "list")
      && strContains to_lower (String.toList "detail") then
    some "List to detail navigation"
  else if strContains from_lower (String.toList "main")
      || strContains from_lower (String.toList "home") then
    some "Navigation from main screen"
  else if strContains to_lower (String.toList "setting") then
    some "Access to settings"
  else if strContains to_lower (String.toList "profile") then
    some "Access to user profile"
  else none

/-- `_find_missing_connections`: every ordered pair of screens at
distinct indices without a connection and with an inferred reason,
truncated to the first 5 (`missing[:5]`). -/
def find_missing_connections (screens : List String) (flows : List NavFlow) :
    List (String × String × String) :=
  ((screens.enum).flatMap (fun a => (screens.enum).filterMap (fun b =>
    if a.1 ≠ b.1 then
      if hasConn flows a.2 b.2 then none
      else
        match infer_connection_reason a.2 b.2 with
        | some reason => some (a.2, b.2, reason)
        | none => none
    else none))).take 5

/-- `_infer_data_type`: lowercase-substring heuristics with a default. -/
def infer_data_type (flow : NavFlow) : String :=
  let from_screen := pyLower flow.fromScreen.toList
  let to_screen := pyLower flow.toScreen.toList
  if strContains from_screen (String.toList "list")
      && strContains to_screen (String.toList "detail") then
    "Item ID, Item Data"
  else if strContains from_screen (String.toList "form")
      || strContains from_screen (String.toList "input") then
    "Form Data"
  else if strContains from_screen (String.toList "setting") then
    "Configuration Data"
  else
    "Navigation State"

/-- The Forward Navigation filter:
`[f for f in flows if 'back' not in f.get('type','').lower()]`. -/
def forward_flows (navigation_flows : List NavFlow) : List NavFlow :=
  navigation_flows.filter (fun f =>
    !(strContains (pyLower f.type.toList) (String.toList "back")))

/-- One row of the data-passing table, per raw navigation flow. -/
def dataFlowRow (flow : NavFlow) : String :=
  "| " ++ flow.fromScreen ++ " | " ++ flow.toScreen ++ " | "
    ++ infer_data_type flow ++ " | Navigation Args |\n"

/-- The data-passing table body: one row per flow, in order. -/
def dataFlowRows (navigation_flows : List NavFlow) : List String :=
  navigation_flows.map dataFlowRow

/-- `generate_user_flows_content`: the complete generated document,
assembled from the extracted collections (the timestamp is the `ts`
argument, standing for `datetime.now()`). -/
def generate_user_flows_content (project_name ts : String)
    (screens : List String) (user_stories : List UserStory)
    (navigation_flows : List NavFlow) : String :=
  let missing := find_missing_connections screens navigation_flows
  "# " ++ String.mk (pyTitle project_name.toList)
    ++ " - User Flows & Screen Navigation\n\n"
  ++ "## 1. Project Overview\n\n"
  ++ "**Project**: "
    ++ String.mk (pyTitle ((project_name.toList).map
         (fun c => if c = '-' then ' ' else c))) ++ "\n"
  ++ "**Generated**: " ++ ts ++ "\n"
  ++ "**Total Screens**: " ++ toString screens.length ++ "\n"
  ++ "**Total User Stories**: " ++ toString user_stories.length ++ "\n"
  ++ "**Navigation Flows**: " ++ toString navigation_flows.length ++ "\n\n"
  ++ (if user_stories.isEmpty then ""
      else "## 2. User Stories Summary\n\n"
        ++ String.join (user_stories.map (fun story =>
             "**" ++ story.id ++ "**: As a " ++ story.actor ++ ", I want "
               ++ story.action ++ ", so that " ++ story.benefit ++ ".\n\n")))
  ++ "## 3. Screen Navigation Map\n\n### 3.1 Visual Flow Diagram\n\n"
  ++ generate_mermaid_diagram screens navigation_flows ++ "\n"
  ++ "### 3.2 Screen Inventory\n\n"
  ++ String.join ((screens.enum).map (fun p =>
       toString (p.1 + 1) ++ ". **" ++ p.2 ++ "**\n")) ++ "\n"
  ++ "### 3.3 Navigation Rules\n\n#### Forward Navigation (Tiến)\n"
  ++ String.join ((forward_flows navigation_flows).map (fun flow =>
       "- " ++ flow.fromScreen ++ " → " ++ flow.toScreen ++ "\n"))
  ++ "\n#### Backward Navigation (Lùi)\n"
  ++ "- Tất cả màn hình hỗ trợ Back button\n"
  ++ "- Navigation stack được quản lý tự động\n\n"
  ++ "## 4. Screen Connection Analysis\n\n"
  ++ generate_connection_matrix screens navigation_flows
  ++ "\n### Missing Connections Analysis\n\n"
  ++ (if missing.isEmpty then "✅ All expected connections are properly defined.\n"
      else "**Potential Missing Connections**:\n"
        ++ String.join (missing.map (fun m =>
             "- " ++ m.1 ++ " → " ++ m.2.1 ++ ": " ++ m.2.2 ++ "\n")))
  ++ "\n## 5. Data Flow Between Screens\n\n### 5.1 Data Passing Rules\n\n"
  ++ "| From Screen | To Screen | Data Passed | Method |\n"
  ++ "|-------------|-----------|-------------|--------|\n"
  ++ String.join (dataFlowRows navigation_flows)
  ++ "\n## 6. Implementation Guidelines\n\n### 6.1 Navigation Implementation\n\n"
  ++ "```kotlin\n// Example navigation implementation\n"
  ++ "navController.navigate(\"destination_route\") \x7b\n"
  ++ "    popUpTo(\"source_route\") \x7b inclusive = false \x7d\n"
  ++ "    launchSingleTop = true\n\x7d\n```\n\n"
  ++ "### 6.2 Data Passing Implementation\n\n"
  ++ "```kotlin\n// Example data passing\n"
  ++ "navController.navigate(\"destination/\x7bparam\x7d\".replace(\"\x7bparam\x7d\", value))\n"
  ++ "```\n\n"
  ++ "## 7. Validation Checklist\n\n### Pre-Implementation Validation\n\n"
  ++ "- [ ] All screens have clear navigation paths\n"
  ++ "- [ ] No orphaned screens (screens without incoming navigation)\n"
  ++ "- [ ] No dead-end screens (screens without outgoing navigation)\n"
  ++ "- [ ] Data flow is consistent across all navigation paths\n"
  ++ "- [ ] Back navigation is properly handled\n"
  ++ "- [ ] Deep linking scenarios are considered\n\n"
  ++ "### Post-Implementation Validation\n\n"
  ++ "- [ ] All navigation flows work as expected\n"
  ++ "- [ ] Data is properly passed between screens\n"
  ++ "- [ ] Navigation stack is managed correctly\n"
  ++ "- [ ] No memory leaks in navigation\n"
  ++ "- [ ] User can complete all primary user journeys\n"

/-! ## Filesystem model, validation, and the run (`generate`, `main`) -/

/-- The slice of the filesystem the script touches for one project:
whether the project directory exists, and the contents of the two input
files and the output file (`none` = the file does not exist). -/
structure ProjectFS where
  projectDirExists : Bool
  requirementsContent : Option String
  designContent : Option String
  userFlowsContent : Option String
deriving DecidableEq, Repr

/-- `validate_project_structure`: the project directory and both input
files must exist (checked in that order, each failure aborting). -/
def validate_project_structure (fs : ProjectFS) : Bool :=
  fs.projectDirExists && fs.requirementsContent.isSome && fs.designContent.isSome

/-- `generate`: validate, then extract from the two inputs, assemble the
document and overwrite the output file; on validation failure return
`False` with the filesystem untouched.  (After validation both inputs
exist, so the `getD ""` defaults are never exercised.) -/
def generate (project_name ts : String) (fs : ProjectFS) : Bool × ProjectFS :=
  if validate_project_structure fs then
    let req := fs.requirementsContent.getD ""
    let des := fs.designContent.getD ""
    let screens := extract_screens_from_requirements req
    let navigation_flows := extract_navigation_from_design des
    let user_stories := extract_user_stories req
    let content := generate_user_flows_content project_name ts screens
      user_stories navigation_flows
    (true, { fs with userFlowsContent := some content })
  else (false, fs)

/-- `main`: exit code 1 on wrong argument count, otherwise run
`generate` and exit 0 on success, 1 on failure. -/
def main_run (argv : List String) (ts : String) (fs : ProjectFS) :
    Nat × ProjectFS :=
  if argv.length ≠ 2 then (1, fs)
  else
    let r := generate (argv.getD 1 "") ts fs
    (if r.1 then 0 else 1, r.2)

/-! ## Concrete input documents used by the end-to-end scenarios -/

/-- The requirements document of the spec's end-to-end scenario. -/
def scenarioRequirements : String :=
  "As a user, I want to view the dashboard screen, So that I can check my stats."

/-- The design document of the spec's end-to-end scenario. -/
def scenarioDesign : String := "Dashboard Screen → Settings Screen"

/-- A design document containing the line `Home Page → Detail Page`,
preceded by a line ending in word characters. -/
def bleedDesign : String := "abc\nHome Page → Detail Page"

/-! # Helper lemmas -/

/-- `setAdd` preserves duplicate-freeness. -/
theorem setAdd_nodup {l : List String} {s : String} (h : l.Nodup) :
    (setAdd l s).Nodup := by
  by_cases hs : s ∈ l
  · simpa [setAdd, hs] using h
  · rw [setAdd, if_neg hs]
    exact h.append (List.nodup_singleton s) (by simpa using hs)

/-- A `foldl` whose step preserves duplicate-freeness preserves it. -/
theorem foldl_nodup {β : Type} (f : List String → β → List String)
    (hf : ∀ a b, a.Nodup → (f a b).Nodup) :
    ∀ (l : List β) (a : List String), a.Nodup → (l.foldl f a).Nodup := by
  intro l
  induction l with
  | nil => intro a ha; simpa using ha
  | cons x xs ih => intro a ha; simpa using ih _ (hf _ _ ha)

/-- `addScreen` preserves duplicate-freeness. -/
theorem addScreen_nodup {l : List String} {c : List Char} (h : l.Nodup) :
    (addScreen l c).Nodup := by
  unfold addScreen
  split
  · exact setAdd_nodup h
  · exact h

/-- `screenPass` preserves duplicate-freeness. -/
theorem screenPass_nodup {acc : List String} {cs : List Char} (h : acc.Nodup) :
    (screenPass acc cs).Nodup := by
  unfold screenPass
  refine foldl_nodup _ (fun a kw ha => ?_) _ _ h
  exact foldl_nodup _ (fun a' c ha' => addScreen_nodup ha') _ _ ha

/-- The extracted screen collection never contains a duplicate
(it models a Python `set`). -/
theorem extract_screens_nodup (content : String) :
    (extract_screens_from_requirements content).Nodup := by
  unfold extract_screens_from_requirements
  refine foldl_nodup _ (fun a sp ha => screenPass_nodup ha) _ _ ?_
  exact screenPass_nodup List.nodup_nil

/-- `has_connection` holds exactly when some flow connects the pair. -/
theorem hasConn_iff (flows : List NavFlow) (a b : String) :
    hasConn flows a b = true ↔
      ∃ f ∈ flows, f.fromScreen = a ∧ f.toScreen = b := by
  simp [hasConn, List.any_eq_true]

/-- Every flow built by the navigation loop has type `"navigation"` and
both names longer than 2 characters. -/
theorem navFlowsOfPairs_mem {ps : List (List Char × List Char)} {f : NavFlow}
    (h : f ∈ navFlowsOfPairs ps) :
    f.type = "navigation" ∧ 2 < f.fromScreen.length ∧ 2 < f.toScreen.length := by
  simp only [navFlowsOfPairs, List.mem_filterMap] at h
  obtain ⟨p, -, hp⟩ := h
  split at hp
  · cases hp
    exact ⟨rfl, by assumption⟩
  · cases hp

/-- Every extracted navigation flow has type `"navigation"` and both
names longer than 2 characters. -/
theorem extract_nav_mem {content : String} {f : NavFlow}
    (h : f ∈ extract_navigation_from_design content) :
    f.type = "navigation" ∧ 2 < f.fromScreen.length ∧ 2 < f.toScreen.length := by
  simp only [extract_navigation_from_design, List.mem_append] at h
  rcases h with ((((h | h) | h) | h) | h) <;> exact navFlowsOfPairs_mem h

/-- A lookup in an association list succeeds exactly for the stored keys. -/
theorem lookup_isSome_iff {β : Type} (l : List (String × β)) (a : String) :
    (l.lookup a).isSome = true ↔ a ∈ l.map Prod.fst := by
  induction l with
  | nil => simp [List.lookup]
  | cons p t ih =>
    by_cases h : a = p.1
    · simp [List.lookup, h]
    · have hb : (a == p.1) = false := beq_eq_false_iff_ne.mpr h
      simp [List.lookup, hb, h, ih]

/-- The keys of the `screen_ids` dict are exactly the screens. -/
theorem screenIds_map_fst (screens : List String) :
    (screenIds screens).map Prod.fst = screens := by
  simp only [screenIds, List.map_map]
  exact List.enum_map_snd screens

/-- The row labels of the connection matrix are exactly the screens. -/
theorem matrixCells_map_fst (screens : List String) (flows : List NavFlow) :
    (matrixCells screens flows).map Prod.fst = screens := by
  simp only [matrixCells, List.map_map]
  exact List.map_id screens

/-! # Claims -/

/-- **C5.** For every extracted screen set and flow list, the
missing-connection advisory never includes an ordered pair `(A,B)` for
which some extracted flow has `from = A` and `to = B` (a pair already
marked present in the connection matrix), and the advisory contains at
most 5 entries. -/
theorem missing_connections_sound (screens : List String) (flows : List NavFlow) :
    (∀ m ∈ find_missing_connections screens flows,
        ¬ ∃ f ∈ flows, f.fromScreen = m.1 ∧ f.toScreen = m.2.1) ∧
    (find_missing_connections screens flows).length ≤ 5 := by
  constructor
  · intro m hm hex
    have hm' := List.mem_of_mem_take hm
    simp only [List.mem_flatMap, List.mem_filterMap] at hm'
    obtain ⟨a, -, b, -, hab⟩ := hm'
    split at hab
    · split at hab
      · cases hab
      · split at hab
        · cases hab
          exact absurd ((hasConn_iff flows _ _).mpr hex) (by simp_all)
        · cases hab
    · cases hab
  · calc (find_missing_connections screens flows).length
        ≤ 5 := List.length_take_le _ _

/-- Witness for C5 at a concrete screen list and flow list. -/
theorem missing_connections_sound_witness :
    ¬ ∃ f ∈ ([] : List NavFlow),
        f.fromScreen = "Home Screen" ∧ f.toScreen = "Settings Screen" :=
  (missing_connections_sound ["Home Screen", "Settings Screen"] []).1
    ("Home Screen", "Settings Screen", "Navigation from main screen") (by decide)

/-- **C6.** Every flow produced by the navigation extractor has type
exactly `"navigation"`, so the Forward Navigation filter (which
excludes flows whose type contains the substring `"back"`) excludes
nothing: the forward listing contains every extracted flow. -/
theorem forward_filter_excludes_nothing (design : String) :
    (∀ f ∈ extract_navigation_from_design design, f.type = "navigation") ∧
    forward_flows (extract_navigation_from_design design) =
      extract_navigation_from_design design := by
  constructor
  · exact fun f hf => (extract_nav_mem hf).1
  · refine List.filter_eq_self.mpr (fun f hf => ?_)
    rw [(extract_nav_mem hf).1]
    decide

/-- Witness for C6 at a concrete design document and flow. -/
theorem forward_filter_excludes_nothing_witness :
    (⟨"Abc Page", "Xyz Page", "navigation"⟩ : NavFlow).type = "navigation" :=
  (forward_filter_excludes_nothing "abc page → xyz page").1 _ (by decide)

/-- **C8.** For a fixed pair of input document contents, any two runs of
the extraction (a run's screen collection is any iteration order of the
extracted set; stories and flows are the extracted lists) yield
set-equal screen collections and list-equal story and flow lists. -/
theorem extraction_deterministic (req design : String) (s1 s2 : List String)
    (h1 : s1.Perm (extract_screens_from_requirements req))
    (h2 : s2.Perm (extract_screens_from_requirements req)) :
    (∀ x, x ∈ s1 ↔ x ∈ s2) ∧
    extract_user_stories req = extract_user_stories req ∧
    extract_navigation_from_design design = extract_navigation_from_design design :=
  ⟨fun x => by rw [h1.mem_iff, h2.mem_iff], rfl, rfl⟩

/-- Witness for C8 at concrete documents and two identical run orders. -/
theorem extraction_deterministic_witness :
    "Abc" ∈ ["Abc"] ↔ "Abc" ∈ ["Abc"] :=
  (extraction_deterministic "view abc" "abc → xyz" ["Abc"] ["Abc"]
    (by decide) (by decide)).1 "Abc"

/-- **C3.** A run on a project whose directory (or requirements file, or
design file) does not exist fails: `generate` returns `False` leaving
the filesystem (in particular the output file) untouched, and the CLI
exits with status 1.  Validation precedes any extraction or write. -/
theorem invalid_project_aborts (fs : ProjectFS) (name ts : String)
    (h : fs.projectDirExists = false ∨ fs.requirementsContent = none ∨
         fs.designContent = none) :
    generate name ts fs = (false, fs) ∧
    main_run ["generate-user-flow-diagram.py", name] ts fs = (1, fs) := by
  have hv : validate_project_structure fs = false := by
    rcases h with h | h | h <;> simp [validate_project_structure, h]
  constructor
  · simp [generate, hv]
  · simp [main_run, generate, hv]

/-- Witness for C3 at a concrete missing project directory. -/
theorem invalid_project_aborts_witness :
    generate "proj" "ts" ⟨false, none, none, none⟩ =
      (false, ⟨false, none, none, none⟩) ∧
    main_run ["generate-user-flow-diagram.py", "proj"] "ts"
        ⟨false, none, none, none⟩ =
      (1, ⟨false, none, none, none⟩) :=
  invalid_project_aborts ⟨false, none, none, none⟩ "proj" "ts" (Or.inl rfl)

/-- **C10.** The extracted screen collection depends only on the
requirements document: across two runs with the same requirements and
different design documents, the screen extractor's output is the same,
so the connection matrix's row labels (and the screen inventory) agree;
a name that the requirements do not produce is a row label in neither
run. -/
theorem screens_independent_of_design (req d1 d2 : String) :
    (matrixCells (extract_screens_from_requirements req)
        (extract_navigation_from_design d1)).map Prod.fst =
      (matrixCells (extract_screens_from_requirements req)
        (extract_navigation_from_design d2)).map Prod.fst ∧
    (∀ s, s ∉ extract_screens_from_requirements req →
      s ∉ (matrixCells (extract_screens_from_requirements req)
            (extract_navigation_from_design d1)).map Prod.fst) := by
  constructor
  · rw [matrixCells_map_fst, matrixCells_map_fst]
  · intro s hs
    rw [matrixCells_map_fst]
    exact hs

/-- Witness for C10: a name only in the design document is not a matrix
row label. -/
theorem screens_independent_of_design_witness :
    "Settings Screen" ∉
      (matrixCells (extract_screens_from_requirements "view abc")
        (extract_navigation_from_design "Settings Screen → Abc")).map Prod.fst :=
  (screens_independent_of_design "view abc" "Settings Screen → Abc" "").2
    "Settings Screen" (by decide)

/-- **C1.** For every extracted screen list and extracted flow list, the
connection matrix has exactly one row and one column per extracted
screen (the row and cell labels are exactly the screens, which carry no
duplicates), and the cell for ordered pair `(A,B)` is marked present if
and only if at least one extracted flow has `from = A` and `to = B`
under exact string equality of the title-cased names. -/
theorem connection_matrix_correct (req design : String) :
    (matrixCells (extract_screens_from_requirements req)
        (extract_navigation_from_design design)).map Prod.fst =
      extract_screens_from_requirements req ∧
    (extract_screens_from_requirements req).Nodup ∧
    (∀ row ∈ matrixCells (extract_screens_from_requirements req)
        (extract_navigation_from_design design),
      row.2.map Prod.fst = extract_screens_from_requirements req) ∧
    (∀ row ∈ matrixCells (extract_screens_from_requirements req)
        (extract_navigation_from_design design),
      ∀ cell ∈ row.2,
        (cell.2 = true ↔
          ∃ f ∈ extract_navigation_from_design design,
            f.fromScreen = row.1 ∧ f.toScreen = cell.1)) := by
  refine ⟨matrixCells_map_fst _ _, extract_screens_nodup req, ?_, ?_⟩
  · intro row hrow
    simp only [matrixCells, List.mem_map] at hrow
    obtain ⟨a, -, rfl⟩ := hrow
    simp only [List.map_map]
    exact List.map_id _
  · intro row hrow
    simp only [matrixCells, List.mem_map] at hrow
    obtain ⟨a, -, rfl⟩ := hrow
    intro cell hcell
    simp only [List.mem_map] at hcell
    obtain ⟨b, -, rfl⟩ := hcell
    exact hasConn_iff _ _ _

/-- Witness for C1 at a concrete requirements/design pair. -/
theorem connection_matrix_correct_witness :
    (("Home List", [("Home List", true)]) : String × List (String × Bool)).2.map
        Prod.fst = extract_screens_from_requirements "page home list" :=
  (connection_matrix_correct "page home list" "home list → home list").2.2.1
    ("Home List", [("Home List", true)]) (by decide)

/-- **C7.** A navigation flow yields an edge statement in the diagram
exactly when both its endpoint names are members of the extracted screen
collection; a name that is not an extracted screen labels no matrix
row; and the raw data-flow table has exactly one row per flow (the
`i`-th row rendering the `i`-th flow). -/
theorem diagram_edges_require_screens (req design : String) :
    (∀ f ∈ extract_navigation_from_design design,
        ((edgeEntry (extract_screens_from_requirements req) f).isSome = true ↔
          (f.fromScreen ∈ extract_screens_from_requirements req ∧
           f.toScreen ∈ extract_screens_from_requirements req))) ∧
    (∀ s, s ∉ extract_screens_from_requirements req →
        s ∉ (matrixCells (extract_screens_from_requirements req)
              (extract_navigation_from_design design)).map Prod.fst) ∧
    dataFlowRows (extract_navigation_from_design design) =
      (extract_navigation_from_design design).map dataFlowRow ∧
    (dataFlowRows (extract_navigation_from_design design)).length =
      (extract_navigation_from_design design).length := by
  refine ⟨?_, ?_, rfl, by simp [dataFlowRows]⟩
  · intro f _
    have h1 : ((screenIds (extract_screens_from_requirements req)).lookup
        f.fromScreen).isSome = true ↔
        f.fromScreen ∈ extract_screens_from_requirements req := by
      rw [lookup_isSome_iff, screenIds_map_fst]
    have h2 : ((screenIds (extract_screens_from_requirements req)).lookup
        f.toScreen).isSome = true ↔
        f.toScreen ∈ extract_screens_from_requirements req := by
      rw [lookup_isSome_iff, screenIds_map_fst]
    rw [← h1, ← h2]
    cases hfrom : (screenIds (extract_screens_from_requirements req)).lookup
        f.fromScreen <;>
      cases hto : (screenIds (extract_screens_from_requirements req)).lookup
        f.toScreen <;>
      simp [edgeEntry, hfrom, hto]
  · intro s hs
    rw [matrixCells_map_fst]
    exact hs

/-- Witness for C7 at a concrete flow whose endpoints are not screens. -/
theorem diagram_edges_require_screens_witness :
    ((edgeEntry (extract_screens_from_requirements "view abc")
        ⟨"Xyz Page", "Abc Page", "navigation"⟩).isSome = true ↔
      (("Xyz Page" : String) ∈ extract_screens_from_requirements "view abc" ∧
       ("Abc Page" : String) ∈ extract_screens_from_requirements "view abc")) :=
  (diagram_edges_require_screens "view abc" "xyz page → abc page").1 _ (by decide)

/-- **C9.** The user story extractor produces one record per match of
the actor/action/benefit template, in exactly the order the matches
occur, each with the 1-based sequential id `US` + zero-padded counter;
no matched story is dropped and none is deduplicated. -/
theorem user_stories_sequential (content : String) :
    (extract_user_stories content).length =
      (findAll stepStoryTriple content.toList).length ∧
    ∀ i : Nat, (extract_user_stories content)[i]? =
      ((findAll stepStoryTriple content.toList)[i]?).map (fun m =>
        ⟨usId (i + 1), String.mk (pyStrip m.1),
         String.mk (pyStrip m.2.1), String.mk (pyStrip m.2.2)⟩) := by
  constructor
  · simp [extract_user_stories]
  · intro i
    simp only [extract_user_stories, List.getElem?_map, List.getElem?_enum]
    cases h : (findAll stepStoryTriple content.toList)[i]? <;> simp [h]

/-- **C2, counterexample.** On the scenario inputs the claim fails: the
screen extractor captures `"the dashboard screen"` after the keyword
`view` (the pattern `screen ([\w\s]+)` does not match, a comma follows
`screen`), so neither `"Dashboard Screen"` nor `"Settings Screen"` is
in the screen inventory. -/
theorem scenario_claimed_screens_absent :
    "Dashboard Screen" ∉ extract_screens_from_requirements scenarioRequirements ∧
    "Settings Screen" ∉ extract_screens_from_requirements scenarioRequirements := by
  decide

/-- **C2, amended.** On the scenario inputs the generator lists user
story `US001` with actor `"user"`; the screen inventory contains
exactly `"The Dashboard Screen"`; the navigation flow
`Dashboard Screen → Settings Screen` is extracted, but since neither
endpoint is an extracted screen the connection matrix is the 1×1 matrix
over `"The Dashboard Screen"` with no cell marked present (there is no
cell for the pair `Dashboard Screen → Settings Screen` at all). -/
theorem scenario_actual_behaviour :
    extract_user_stories scenarioRequirements =
      [⟨"US001", "user", "to view the dashboard screen", "I can check my stats"⟩] ∧
    extract_screens_from_requirements scenarioRequirements =
      ["The Dashboard Screen"] ∧
    extract_navigation_from_design scenarioDesign =
      [⟨"Dashboard Screen", "Settings Screen", "navigation"⟩] ∧
    matrixCells (extract_screens_from_requirements scenarioRequirements)
        (extract_navigation_from_design scenarioDesign) =
      [("The Dashboard Screen", [("The Dashboard Screen", false)])] := by
  decide

/-- **C4, counterexample.** The claim fails on a document whose line
before the arrow line ends in word characters: `[\w\s]` matches the
newline, so the first capture greedily extends into the previous line
and the extracted `from` is not the title-cased `<A>` of the line.
`bleedDesign` contains the line `"Home Page → Detail Page"` with both
sides trimmed and longer than 2 characters, yet no extracted flow has
`from = "Home Page"`. -/
theorem arrow_capture_bleeds :
    extract_navigation_from_design bleedDesign =
      [⟨"Abc\nHome Page", "Detail Page", "navigation"⟩] ∧
    bleedDesign = "abc\n" ++ "Home Page → Detail Page" ∧
    (⟨"Home Page", "Detail Page", "navigation"⟩ : NavFlow) ∉
      extract_navigation_from_design bleedDesign := by
  decide

/-- `findAllAux` on the empty remainder returns nothing (for a step
that never matches there). -/
theorem findAllAux_nil {α : Type} (step : List Char → Option (α × List Char))
    (h0 : step [] = none) (fuel : Nat) : findAllAux step fuel [] = [] := by
  cases fuel <;> simp [findAllAux, h0]

/-- If the step matches at the very start and consumes the whole input,
`findAll` returns exactly that one match. -/
theorem findAll_single {α : Type} (step : List Char → Option (α × List Char))
    (cs : List Char) (a : α) (h : step cs = some (a, []))
    (h0 : step [] = none) (hne : cs ≠ []) : findAll step cs = [a] := by
  cases cs with
  | nil => exact absurd rfl hne
  | cons c t =>
    show findAllAux step (c :: t).length (c :: t) = [a]
    rw [List.length_cons]
    simp only [findAllAux, h]
    rw [findAllAux_nil step h0]

/-- `takeWhile` walks through a prefix all of whose elements satisfy
the predicate. -/
theorem takeWhile_append_all {α : Type} (p : α → Bool) (l r : List α)
    (hl : ∀ c ∈ l, p c = true) :
    (l ++ r).takeWhile p = l ++ r.takeWhile p := by
  induction l with
  | nil => simp
  | cons c t ih =>
    have hc : p c = true := hl c (by simp)
    simp only [List.cons_append, List.takeWhile_cons, hc, if_true]
    rw [ih (fun x hx => hl x (by simp [hx]))]

/-- A list fixed by `dropWhile` has a head not satisfying the predicate. -/
theorem head_false_of_dropWhile_eq_self {α : Type} {p : α → Bool} {c : α}
    {t : List α} (h : (c :: t).dropWhile p = c :: t) : p c = false := by
  have := List.dropWhile_eq_self_iff.mp h (by simp)
  simpa using this

/-- `strip` is the identity on a list with no leading and no trailing
whitespace. -/
theorem pyStrip_eq_self {B : List Char} (hBl : B.dropWhile pyWs = B)
    (hBr : B.reverse.dropWhile pyWs = B.reverse) : pyStrip B = B := by
  unfold pyStrip
  rw [hBl, hBr, List.reverse_reverse]

/-- `strip` removes exactly the trailing space appended after a list
with no leading and no trailing whitespace. -/
theorem pyStrip_append_space {A : List Char} (hA0 : A ≠ [])
    (hAl : A.dropWhile pyWs = A) (hAr : A.reverse.dropWhile pyWs = A.reverse) :
    pyStrip (A ++ [' ']) = A := by
  unfold pyStrip
  have h1 : (A ++ [' ']).dropWhile pyWs = A ++ [' '] := by
    cases A with
    | nil => exact absurd rfl hA0
    | cons c t =>
      have hc : pyWs c = false := head_false_of_dropWhile_eq_self hAl
      simp [List.dropWhile_cons, hc]
  rw [h1, List.reverse_append]
  show ((' ' :: A.reverse).dropWhile pyWs).reverse = A
  rw [List.dropWhile_cons]
  simp only [show pyWs ' ' = true from rfl, if_true]
  rw [hAr, List.reverse_reverse]

/-- On a document of the exact form `A ++ " → " ++ B` (`A`, `B`
nonempty word/space strings, `B` without leading whitespace), the
arrow-pattern step matches once at the start: group 1 is `A` plus the
space before the arrow, group 2 is `B`, and the whole input is
consumed. -/
theorem stepCapSepCap_arrow_line (A B : List Char)
    (hAw : ∀ c ∈ A, wsOrWord c = true) (hB0 : B ≠ [])
    (hBw : ∀ c ∈ B, wsOrWord c = true) (hBl : B.dropWhile pyWs = B) :
    stepCapSepCap (String.toList "→") (A ++ ' ' :: '→' :: ' ' :: B) =
      some ((A ++ [' '], B), []) := by
  have hrun1 : (A ++ ' ' :: '→' :: ' ' :: B).takeWhile wsOrWord
      = A ++ [' '] := by
    rw [takeWhile_append_all wsOrWord A _ hAw]
    rw [List.takeWhile_cons]
    simp only [show wsOrWord ' ' = true from rfl, if_true]
    rw [List.takeWhile_cons]
    simp [show wsOrWord '→' = false from rfl]
  have hr1ne : A ++ [' '] ≠ [] := by simp
  have hdrop1 : (A ++ ' ' :: '→' :: ' ' :: B).drop (A ++ [' ']).length
      = '→' :: ' ' :: B := by
    have he : A ++ ' ' :: '→' :: ' ' :: B = (A ++ [' ']) ++ '→' :: ' ' :: B := by
      simp
    rw [he, List.drop_left]
  have hci : ciStarts (String.toList "→") ('→' :: ' ' :: B) = true := rfl
  have hci' : ciStarts ['→'] ('→' :: ' ' :: B) = true := rfl
  have hdropsep : ('→' :: ' ' :: B).drop (String.toList "→").length
      = ' ' :: B := rfl
  have hrun2 : ((' ' :: B).takeWhile wsOrWord) = ' ' :: B := by
    rw [List.takeWhile_cons]
    simp only [show wsOrWord ' ' = true from rfl, if_true]
    rw [List.takeWhile_eq_self_iff.mpr hBw]
  have hr2ne : (' ' :: B) ≠ [] := by simp
  have ht : (' ' :: B).dropWhile pyWs = B := by
    rw [List.dropWhile_cons]
    simp only [show pyWs ' ' = true from rfl, if_true]
    exact hBl
  simp [stepCapSepCap, hrun1, hr1ne, hdrop1, hci, hci', hdropsep, hrun2,
    hr2ne, ht, hB0]

/-- **C4, amended.** The claim holds once the arrow line is protected
from greedy context bleed: for any design document that is exactly the
line `<A> → <B>`, with `<A>` and `<B>` nonempty word/space strings with
no leading or trailing whitespace whose title-cased forms exceed 2
characters, the navigation extractor yields a flow record with `from`
the title-cased `<A>`, `to` the title-cased `<B>` and type
`"navigation"`; and unconditionally an edge is kept only if both
trimmed, title-cased names exceed 2 characters. -/
theorem arrow_line_extraction (A B : List Char)
    (hA0 : A ≠ []) (hAw : ∀ c ∈ A, wsOrWord c = true)
    (hAl : A.dropWhile pyWs = A) (hAr : A.reverse.dropWhile pyWs = A.reverse)
    (hB0 : B ≠ []) (hBw : ∀ c ∈ B, wsOrWord c = true)
    (hBl : B.dropWhile pyWs = B) (hBr : B.reverse.dropWhile pyWs = B.reverse)
    (hAn : 2 < (String.mk (pyTitle A)).length)
    (hBn : 2 < (String.mk (pyTitle B)).length) :
    (⟨String.mk (pyTitle A), String.mk (pyTitle B), "navigation"⟩ : NavFlow) ∈
      extract_navigation_from_design
        (String.mk (A ++ ' ' :: '→' :: ' ' :: B)) ∧
    ∀ (content : String), ∀ f ∈ extract_navigation_from_design content,
      2 < f.fromScreen.length ∧ 2 < f.toScreen.length := by
  constructor
  · have hstep := stepCapSepCap_arrow_line A B hAw hB0 hBw hBl
    have hnil : stepCapSepCap (String.toList "→") [] = none := rfl
    have hne : A ++ ' ' :: '→' :: ' ' :: B ≠ [] := by simp
    have hfa : findAll (stepCapSepCap (String.toList "→"))
        (A ++ ' ' :: '→' :: ' ' :: B) = [(A ++ [' '], B)] :=
      findAll_single _ _ _ hstep hnil hne
    have e1 : pyStrip (A ++ [' ']) = A := pyStrip_append_space hA0 hAl hAr
    have e2 : pyStrip B = B := pyStrip_eq_self hBl hBr
    unfold extract_navigation_from_design
    simp only [show (String.mk (A ++ ' ' :: '→' :: ' ' :: B)).toList
        = A ++ ' ' :: '→' :: ' ' :: B from rfl, hfa]
    apply List.mem_append_left
    apply List.mem_append_left
    apply List.mem_append_left
    apply List.mem_append_left
    simp [navFlowsOfPairs, e1, e2, hAn, hBn]
    exact ⟨hAn, hBn⟩
  · intro content f hf
    exact ⟨(extract_nav_mem hf).2.1, (extract_nav_mem hf).2.2⟩

/-- Witness for the amended C4 at the concrete line
`Home Page → Detail Page`. -/
theorem arrow_line_extraction_witness :
    (⟨String.mk (pyTitle (String.toList "Home Page")),
      String.mk (pyTitle (String.toList "Detail Page")),
      "navigation"⟩ : NavFlow) ∈
      extract_navigation_from_design
        (String.mk ((String.toList "Home Page") ++ ' ' :: '→' :: ' ' ::
          (String.toList "Detail Page"))) :=
  (arrow_line_extraction (String.toList "Home Page")
    (String.toList "Detail Page") (by decide) (by decide) (by decide)
    (by decide) (by decide) (by decide) (by decide) (by decide) (by decide)
    (by decide)).1
